import Mathlib

/-
Verification development for the weather-and-forecast normalization engine
of the farmer dashboard repository.  The definitions below are a shallow
embedding of `src/ai/flows/get-weather-flow.ts` (the current revision) and,
in the `Part003` namespace, of the historical revision that classifies
mixed current/daily intervals (`potentialCurrentInterval`).

Modelling conventions:
* JavaScript numbers are modelled as rationals (ℚ); weather codes, which
  the upstream API documents as integer codes, are modelled as integers.
* `Math.round` is JavaScript rounding: half rounds toward positive
  infinity, i.e. `fun x => ⌊x + 1/2⌋`.
* Calendar dates (the `yyyy-MM-dd` strings produced by `format`) are
  modelled as integer day numbers; `startOfDay(new Date())` is the
  parameter `today`.  Formatting a day to `yyyy-MM-dd` is injective and
  monotone on the relevant range, so string equality / comparator order
  on dates coincides with ℤ equality / order on day numbers.
* The two `fetch` calls are modelled by explicit outcome parameters
  (`FetchResult`): a thrown network error, a non-2xx status, a JSON body
  that fails to parse, or a parsed payload.  A parsed payload carries
  `none` when the `data.data?.timelines?.[0]?...` optional-chain check of
  the source fails, `some _` otherwise.
* The outbound requests the tool attempts are returned alongside the
  output (`ToolRun.requests`) so that claims about network effects can be
  stated.
-/

namespace WeatherFlow

/-- JavaScript `Math.round`: rounds half toward positive infinity,
`fun x => floor (x + 1/2)`. -/
def jsRound (x : ℚ) : ℚ := ((⌊x + 1/2⌋ : ℤ) : ℚ)

/-- The `values` map of one upstream interval: every field the two source
revisions ever read.  `none` models an absent (`undefined`) field. -/
structure Values where
  temperature : Option ℚ
  humidity : Option ℚ
  windSpeed : Option ℚ
  weatherCode : Option ℤ
  precipitationProbability : Option ℚ
  uvIndex : Option ℚ
  pressureSeaLevel : Option ℚ
  temperatureMax : Option ℚ
  temperatureMin : Option ℚ
  weatherCodeDay : Option ℤ
  precipitationProbabilityAvg : Option ℚ
deriving DecidableEq

/-- A `Values` record with every field absent. -/
def emptyValues : Values :=
  ⟨none, none, none, none, none, none, none, none, none, none, none⟩

/-- One upstream interval of the forecast timeline, as read by the current
revision: only the calendar day of `startTime` is ever used
(`format(new Date(interval.startTime), 'yyyy-MM-dd')` and
`startOfDay(forecastDate)`), so the model stores the day number.  The
`values` object of an interval may be absent (`interval.values &&` check
in the source). -/
structure Interval where
  startDay : ℤ
  values : Option Values
deriving DecidableEq

/-- Canonical current-conditions record (`CurrentWeatherDataSchema`). -/
structure CurrentWeatherData where
  temperature : ℚ
  humidity : ℚ
  windSpeed : ℚ
  weatherCode : ℤ
  precipitationProbability : ℚ
  uvIndex : ℚ
  pressure : ℚ
  weatherDescription : String
deriving DecidableEq

/-- Canonical daily-forecast record (`DailyForecastItemSchema`); `date` is
the day number standing for the `yyyy-MM-dd` string. -/
structure DailyForecastItem where
  date : ℤ
  tempMax : ℚ
  tempMin : ℚ
  weatherCode : ℤ
  weatherDescription : String
  precipitationProbability : ℚ
deriving DecidableEq

/-- The fixed lookup table of known tomorrow.io weather codes, from the
`codes` literal of `weatherCodeToString`. -/
def weatherCodeTable (code : ℤ) : Option String :=
  if code = 0 then some ("Unknown")
  else if code = 1000 then some ("Clear")
  else if code = 1001 then some ("Cloudy")
  else if code = 1100 then some ("Mostly Clear")
  else if code = 1101 then some ("Partly Cloudy")
  else if code = 1102 then some ("Mostly Cloudy")
  else if code = 2000 then some ("Fog")
  else if code = 2100 then some ("Light Fog")
  else if code = 4000 then some ("Drizzle")
  else if code = 4001 then some ("Rain")
  else if code = 4200 then some ("Light Rain")
  else if code = 4201 then some ("Heavy Rain")
  else if code = 5000 then some ("Snow")
  else if code = 5001 then some ("Flurries")
  else if code = 5100 then some ("Light Snow")
  else if code = 5101 then some ("Heavy Snow")
  else if code = 6000 then some ("Freezing Drizzle")
  else if code = 6001 then some ("Freezing Rain")
  else if code = 6200 then some ("Light Freezing Rain")
  else if code = 6201 then some ("Heavy Freezing Rain")
  else if code = 7000 then some ("Ice Pellets")
  else if code = 7101 then some ("Heavy Ice Pellets")
  else if code = 7102 then some ("Light Ice Pellets")
  else if code = 8000 then some ("Thunderstorm")
  else none

/-- `weatherCodeToString`: an `undefined` code yields the availability
sentinel; a known code is looked up in the table; an unknown code yields
the literal string Code followed by the code (`codes[code] || ...`; no
table entry is the empty string, so JavaScript truthiness coincides with
presence). -/
def weatherCodeToString (code : Option ℤ) : String :=
  match code with
  | none => "Weather data unavailable"
  | some c => (weatherCodeTable c).getD ("Code " ++ toString c)

/-- `fallbackCurrent`: the sentinel current-conditions record. -/
def fallbackCurrent : CurrentWeatherData :=
  ⟨0, 0, 0, 0, 0, 0, 1000, "Unavailable"⟩

/-- `createFallbackForecast`: seven sentinel days starting at `today`. -/
def createFallbackForecast (today : ℤ) : List DailyForecastItem :=
  (List.range 7).map (fun (i : ℕ) => ⟨today + (i : ℤ), 0, 0, 0, "N/A", 0⟩)

/-- The record literal assigned to `parsedCurrentWeather` when the current
fetch yields a usable `values` object `cv` (source lines 114-123). -/
def parsedCurrentWeather (cv : Values) : CurrentWeatherData :=
  ⟨jsRound (cv.temperature.getD 0),
   jsRound (cv.humidity.getD 0),
   jsRound ((cv.windSpeed.getD 0) * 3.6 * 10) / 10,
   cv.weatherCode.getD 0,
   jsRound (cv.precipitationProbability.getD 0),
   jsRound (cv.uvIndex.getD 0),
   jsRound (cv.pressureSeaLevel.getD 1000),
   weatherCodeToString cv.weatherCode⟩

/-- The daily item pushed onto `tempForecastItems` for one interval with
values `v` (source lines 156-163). -/
def mkDailyItem (iv : Interval) (v : Values) : DailyForecastItem :=
  ⟨iv.startDay,
   jsRound (v.temperatureMax.getD 0),
   jsRound (v.temperatureMin.getD 0),
   (v.weatherCodeDay.orElse (fun _ => v.weatherCode)).getD 0,
   weatherCodeToString (v.weatherCodeDay.orElse (fun _ => v.weatherCode)),
   jsRound (v.precipitationProbability.getD 0)⟩

/-- The `for (const interval of intervals)` collection loop (source lines
151-166): an interval contributes when its `values` object is present, at
most seven items are pushed, and past days are skipped. -/
def tempForecastItems (intervals : List Interval) (today : ℤ) :
    List DailyForecastItem :=
  intervals.foldl
    (fun acc iv =>
      match iv.values with
      | none => acc
      | some v =>
        if acc.length < 7 then
          if today ≤ iv.startDay then acc ++ [mkDailyItem iv v] else acc
        else acc)
    []

/-- Insertion step of a stable ascending sort by date. -/
def insertByDate (x : DailyForecastItem) :
    List DailyForecastItem → List DailyForecastItem
  | [] => [x]
  | y :: ys => if y.date < x.date then y :: insertByDate x ys else x :: y :: ys

/-- `tempForecastItems.sort((a, b) => dateA - dateB)`: JavaScript
`Array.prototype.sort` is stable, and any stable sort by the date key
produces the same list, so a stable insertion sort models it. -/
def sortByDate (l : List DailyForecastItem) : List DailyForecastItem :=
  l.foldr insertByDate []

/-- The calendar-alignment loop (source lines 171-184): for each offset
`i < 7` take the first sorted item whose date is `today + i`, otherwise a
sentinel for that date. -/
def finalForecast (sorted : List DailyForecastItem) (today : ℤ) :
    List DailyForecastItem :=
  (List.range 7).map (fun (i : ℕ) =>
    match sorted.find? (fun f => f.date == today + (i : ℤ)) with
    | some foundDay => foundDay
    | none => ⟨today + (i : ℤ), 0, 0, 0, "N/A", 0⟩)

/-- Outcome of one `fetch` call with parsed payload type `α`:
a thrown network error, a non-2xx response, a body whose `json()` call
throws, or a parsed payload. -/
inductive FetchResult (α : Type) where
  | networkError : FetchResult α
  | httpError : ℕ → FetchResult α
  | malformedJson : FetchResult α
  | payload : α → FetchResult α
deriving DecidableEq

/-- The value of the `parsedCurrentWeather` variable after the current
fetch block (source lines 97-131): only a parsed payload that passes the
`currentData.data?.timelines?.[0]?.intervals?.[0]?.values` check replaces
the fallback. -/
def parsedCurrentWeatherResult (cur : FetchResult (Option Values)) :
    CurrentWeatherData :=
  match cur with
  | FetchResult.payload (some cv) => parsedCurrentWeather cv
  | _ => fallbackCurrent

/-- The value of the `parsedForecastItems` variable after the forecast
fetch block (source lines 98 and 139-196): only a parsed payload that
passes the `forecastData.data?.timelines?.[0]?.intervals` check and yields
at least one collected item replaces the fallback. -/
def parsedForecastItems (fc : FetchResult (Option (List Interval)))
    (today : ℤ) : List DailyForecastItem :=
  match fc with
  | FetchResult.payload (some intervals) =>
    let temp := tempForecastItems intervals today
    if 0 < temp.length then finalForecast (sortByDate temp) today
    else createFallbackForecast today
  | _ => createFallbackForecast today

/-- `GetWeatherInputSchema`. -/
structure GetWeatherInput where
  latitude : ℚ
  longitude : ℚ
deriving DecidableEq

/-- One outbound HTTP request the tool attempts, identified by which of
the two API URLs it builds (each URL embeds the coordinates). -/
inductive RequestKind where
  | currentReq : ℚ → ℚ → RequestKind
  | forecastReq : ℚ → ℚ → RequestKind
deriving DecidableEq

/-- `WeatherAndForecastOutputSchema`. -/
structure WeatherAndForecastOutput where
  current : CurrentWeatherData
  forecast : List DailyForecastItem
deriving DecidableEq

/-- Result of one run of the tool: the returned output together with the
outbound requests attempted during the run. -/
structure ToolRun where
  output : WeatherAndForecastOutput
  requests : List RequestKind
deriving DecidableEq

/-- The tool body (source lines 87-202).  `hasApiKey` models whether
`process.env.TOMORROW_IO_API_KEY` is set; a missing key returns the
fallback output before any request is built.  Otherwise both fetches are
attempted (a failed current fetch does not stop the forecast fetch) and
the final return slices the forecast to seven entries. -/
def fetchWeatherAndForecastTool (input : GetWeatherInput) (hasApiKey : Bool)
    (today : ℤ) (cur : FetchResult (Option Values))
    (fc : FetchResult (Option (List Interval))) : ToolRun :=
  if !hasApiKey then
    ⟨⟨fallbackCurrent, createFallbackForecast today⟩, []⟩
  else
    ⟨⟨parsedCurrentWeatherResult cur, (parsedForecastItems fc today).take 7⟩,
     [RequestKind.currentReq input.latitude input.longitude,
      RequestKind.forecastReq input.latitude input.longitude]⟩

/-- `getWeather` delegates to `getWeatherFlow`, which delegates to the
tool. -/
def getWeather (input : GetWeatherInput) (hasApiKey : Bool) (today : ℤ)
    (cur : FetchResult (Option Values))
    (fc : FetchResult (Option (List Interval))) : ToolRun :=
  fetchWeatherAndForecastTool input hasApiKey today cur fc

end WeatherFlow

namespace Part003

/-- One upstream interval as read by the historical revision in
`src/unnamed/part_003`: the full `startTime` timestamp matters there
(comparison against `now`), modelled as an integer timestamp. -/
structure Interval where
  startTime : ℤ
  values : WeatherFlow.Values
deriving DecidableEq

/-- The current-candidate test of the selection loop (part_003 line 143):
`interval.values.temperature !== undefined && interval.values.temperatureMax === undefined`. -/
def isCurrentCandidate (iv : Interval) : Bool :=
  iv.values.temperature.isSome && iv.values.temperatureMax.isNone

/-- The daily-candidate test of the forecast loop (part_003 line 181):
`interval.values.temperatureMax !== undefined && interval.values.temperatureMin !== undefined`. -/
def isDailyCandidate (iv : Interval) : Bool :=
  iv.values.temperatureMax.isSome && iv.values.temperatureMin.isSome

/-- One step of the `for (const interval of intervals)` selection loop
(part_003 lines 142-149).  The incumbent is replaced when the new
candidate starts not after `now` and strictly after the incumbent; the
`!potentialCurrentInterval.startTime` disjunct of the source is always
false because `startTime` is a nonempty string on every interval. -/
def currentLoopStep (now : ℤ) (acc : Option Interval) (iv : Interval) :
    Option Interval :=
  if isCurrentCandidate iv then
    match acc with
    | none => some iv
    | some b =>
      if iv.startTime ≤ now ∧ b.startTime < iv.startTime then some iv else acc
  else acc

/-- `potentialCurrentInterval` (part_003 lines 141-155): the selection
loop followed by the first-interval heuristic fallback. -/
def potentialCurrentInterval (intervals : List Interval) (now : ℤ) :
    Option Interval :=
  match intervals.foldl (currentLoopStep now) none with
  | some iv => some iv
  | none =>
    match intervals with
    | [] => none
    | iv0 :: _ => if isCurrentCandidate iv0 then some iv0 else none

end Part003

namespace WeatherFlow

theorem jsRound_intCast (z : ℤ) : jsRound (z : ℚ) = z := by
  unfold jsRound
  rw [Int.floor_int_add]
  norm_num

theorem range7_map_getElem {α : Type} (g : ℕ → α) (i : ℕ) (h : i < 7) :
    ((List.range 7).map g)[i]? = some (g i) := by
  rw [List.getElem?_map, List.getElem?_range h]
  rfl

theorem range7_map_length {α : Type} (g : ℕ → α) :
    ((List.range 7).map g).length = 7 := by
  rw [List.length_map, List.length_range]

theorem take_seven {α : Type} (l : List α) (h : l.length = 7) :
    l.take 7 = l := by
  rw [← h, List.take_length]

theorem createFallbackForecast_getElem (today : ℤ) (i : ℕ) (h : i < 7) :
    (createFallbackForecast today)[i]? = some ⟨today + i, 0, 0, 0, "N/A", 0⟩ := by
  rw [createFallbackForecast]
  exact range7_map_getElem _ i h

theorem createFallbackForecast_length (today : ℤ) :
    (createFallbackForecast today).length = 7 := by
  rw [createFallbackForecast]
  exact range7_map_length _

theorem finalForecast_length (sorted : List DailyForecastItem) (today : ℤ) :
    (finalForecast sorted today).length = 7 := by
  rw [finalForecast]
  exact range7_map_length _

theorem finalForecast_date (sorted : List DailyForecastItem) (today : ℤ)
    (i : ℕ) (h : i < 7) :
    ∃ f, (finalForecast sorted today)[i]? = some f ∧ f.date = today + i := by
  rw [finalForecast, range7_map_getElem _ i h]
  cases hfind : sorted.find? (fun f => f.date == today + i) with
  | none => exact ⟨_, rfl, rfl⟩
  | some fd =>
    refine ⟨fd, rfl, ?_⟩
    simpa using List.find?_some hfind

theorem parsedForecastItems_length (fc : FetchResult (Option (List Interval)))
    (today : ℤ) : (parsedForecastItems fc today).length = 7 := by
  cases fc with
  | payload o =>
    cases o with
    | none => exact createFallbackForecast_length today
    | some intervals =>
      by_cases h : 0 < (tempForecastItems intervals today).length
      · simp only [parsedForecastItems, if_pos h]
        exact finalForecast_length _ _
      · simp only [parsedForecastItems, if_neg h]
        exact createFallbackForecast_length today
  | networkError => exact createFallbackForecast_length today
  | httpError s => exact createFallbackForecast_length today
  | malformedJson => exact createFallbackForecast_length today

theorem parsedForecastItems_date (fc : FetchResult (Option (List Interval)))
    (today : ℤ) (i : ℕ) (h : i < 7) :
    ∃ f, (parsedForecastItems fc today)[i]? = some f ∧ f.date = today + i := by
  cases fc with
  | payload o =>
    cases o with
    | none =>
      exact ⟨_, createFallbackForecast_getElem today i h, rfl⟩
    | some intervals =>
      by_cases hl : 0 < (tempForecastItems intervals today).length
      · simp only [parsedForecastItems, if_pos hl]
        exact finalForecast_date _ today i h
      · simp only [parsedForecastItems, if_neg hl]
        exact ⟨_, createFallbackForecast_getElem today i h, rfl⟩
  | networkError => exact ⟨_, createFallbackForecast_getElem today i h, rfl⟩
  | httpError s => exact ⟨_, createFallbackForecast_getElem today i h, rfl⟩
  | malformedJson => exact ⟨_, createFallbackForecast_getElem today i h, rfl⟩

end WeatherFlow

/-- Claim C1: for every coordinate input and every upstream outcome
(complete, partial, out-of-order, or totally failed response), the result
of `getWeather` has a forecast of length exactly 7, and the entry at every
offset `i < 7` carries the date `today + i`: the dates are strictly
consecutive calendar days starting at the current day. -/
theorem getWeather_shape_invariant (input : WeatherFlow.GetWeatherInput)
    (hasApiKey : Bool) (today : ℤ)
    (cur : WeatherFlow.FetchResult (Option WeatherFlow.Values))
    (fc : WeatherFlow.FetchResult (Option (List WeatherFlow.Interval))) :
    (WeatherFlow.getWeather input hasApiKey today cur fc).output.forecast.length = 7 ∧
    ∀ i : ℕ, i < 7 →
      ∃ f, (WeatherFlow.getWeather input hasApiKey today cur fc).output.forecast[i]? = some f ∧
        f.date = today + i := by
  cases hasApiKey with
  | false =>
    refine ⟨WeatherFlow.createFallbackForecast_length today, fun i h => ?_⟩
    exact ⟨_, WeatherFlow.createFallbackForecast_getElem today i h, rfl⟩
  | true =>
    have hlen := WeatherFlow.parsedForecastItems_length fc today
    have htake := WeatherFlow.take_seven _ hlen
    constructor
    · show ((WeatherFlow.parsedForecastItems fc today).take 7).length = 7
      rw [htake]; exact hlen
    · intro i h
      show ∃ f, ((WeatherFlow.parsedForecastItems fc today).take 7)[i]? = some f ∧ _
      rw [htake]
      exact WeatherFlow.parsedForecastItems_date fc today i h

/-- Witness for C1 at a concrete input: missing key, day zero, offset
zero. -/
theorem getWeather_shape_invariant_witness :
    ∃ f, (WeatherFlow.getWeather ⟨0, 0⟩ false 0 WeatherFlow.FetchResult.networkError
        WeatherFlow.FetchResult.networkError).output.forecast[0]? = some f ∧
      f.date = (0 : ℤ) + ((0 : ℕ) : ℤ) :=
  (getWeather_shape_invariant ⟨0, 0⟩ false 0 WeatherFlow.FetchResult.networkError
    WeatherFlow.FetchResult.networkError).2 0 (by decide)

/-- Claim C6: if the API key environment variable is absent, `getWeather`
returns the sentinel result (sentinel current record plus full sentinel
forecast) and attempts zero outbound requests, regardless of what the
upstream would have answered. -/
theorem getWeather_missing_key_no_requests (input : WeatherFlow.GetWeatherInput)
    (today : ℤ) (cur : WeatherFlow.FetchResult (Option WeatherFlow.Values))
    (fc : WeatherFlow.FetchResult (Option (List WeatherFlow.Interval))) :
    (WeatherFlow.getWeather input false today cur fc).requests = [] ∧
    (WeatherFlow.getWeather input false today cur fc).output =
      ⟨WeatherFlow.fallbackCurrent, WeatherFlow.createFallbackForecast today⟩ :=
  ⟨rfl, rfl⟩

/-- Claim C10: the current-conditions and forecast halves of the pipeline
are independent: the forecast part of the output depends only on the
forecast fetch outcome, and the current part depends only on the current
fetch outcome. -/
theorem getWeather_halves_independent (input : WeatherFlow.GetWeatherInput)
    (hasApiKey : Bool) (today : ℤ)
    (cur cur2 : WeatherFlow.FetchResult (Option WeatherFlow.Values))
    (fc fc2 : WeatherFlow.FetchResult (Option (List WeatherFlow.Interval))) :
    (WeatherFlow.getWeather input hasApiKey today cur fc).output.forecast =
      (WeatherFlow.getWeather input hasApiKey today cur2 fc).output.forecast ∧
    (WeatherFlow.getWeather input hasApiKey today cur fc).output.current =
      (WeatherFlow.getWeather input hasApiKey today cur fc2).output.current := by
  cases hasApiKey with
  | false => exact ⟨rfl, rfl⟩
  | true => exact ⟨rfl, rfl⟩

namespace WeatherFlow

/-- Rounding to one decimal place, as the spec words it:
`round(x, 1 decimal) = round(x * 10) / 10` with JavaScript rounding. -/
def round1 (x : ℚ) : ℚ := ((⌊x * 10 + 1/2⌋ : ℤ) : ℚ) / 10

end WeatherFlow

/-- Claim C7: the mapped wind speed is the upstream meters-per-second
value converted to kilometers per hour and rounded to one decimal place:
whenever `windSpeed` is present with value `ms`, the output equals
`round1 (ms * 3.6)`; `ms = 10` yields exactly 36; an absent `windSpeed`
yields 0. -/
theorem windSpeed_conversion :
    (∀ cv : WeatherFlow.Values, ∀ ms : ℚ, cv.windSpeed = some ms →
      (WeatherFlow.parsedCurrentWeather cv).windSpeed = WeatherFlow.round1 (ms * 3.6)) ∧
    (∀ cv : WeatherFlow.Values, cv.windSpeed = none →
      (WeatherFlow.parsedCurrentWeather cv).windSpeed = 0) ∧
    (∀ cv : WeatherFlow.Values, cv.windSpeed = some 10 →
      (WeatherFlow.parsedCurrentWeather cv).windSpeed = 36) := by
  refine ⟨?_, ?_, ?_⟩
  · intro cv ms h
    simp only [WeatherFlow.parsedCurrentWeather, h, Option.getD_some,
      WeatherFlow.jsRound, WeatherFlow.round1]
  · intro cv h
    simp only [WeatherFlow.parsedCurrentWeather, h, Option.getD_none,
      WeatherFlow.jsRound]
    norm_num
  · intro cv h
    simp only [WeatherFlow.parsedCurrentWeather, h, Option.getD_some,
      WeatherFlow.jsRound]
    norm_num

/-- Concrete values record with only the wind speed present, for the C7
witness. -/
def cvWind : WeatherFlow.Values :=
  { WeatherFlow.emptyValues with windSpeed := some 10 }

/-- Witness for C7: 10 m/s maps to exactly 36 km/h. -/
theorem windSpeed_conversion_witness :
    (WeatherFlow.parsedCurrentWeather cvWind).windSpeed = 36 :=
  windSpeed_conversion.2.2 cvWind rfl

/-- Counterexample to C8 as stated: in the mapped current record a fully
absent upstream payload yields pressure 1000, not zero, so not every
absent numeric field defaults to zero. -/
theorem mapped_pressure_default_not_zero :
    (WeatherFlow.parsedCurrentWeather WeatherFlow.emptyValues).pressure = 1000 ∧
    ((1000 : ℚ) = 0 → False) := by
  constructor
  · show WeatherFlow.jsRound ((WeatherFlow.emptyValues.pressureSeaLevel).getD 1000) = 1000
    norm_num [WeatherFlow.jsRound, WeatherFlow.emptyValues]
  · norm_num

/-- Claim C8, amended: in every mapped record each numeric field other
than the unit-converted wind speed is an integer (rounded to the nearest
integer), and every absent upstream field defaults to zero for numeric
fields — except pressure, which defaults to 1000 — or to an explicit
sentinel string for the textual description. -/
theorem field_mapper_rounding_defaults (cv : WeatherFlow.Values)
    (iv : WeatherFlow.Interval) :
    ((∃ z : ℤ, (WeatherFlow.parsedCurrentWeather cv).temperature = (z : ℚ)) ∧
     (∃ z : ℤ, (WeatherFlow.parsedCurrentWeather cv).humidity = (z : ℚ)) ∧
     (∃ z : ℤ, (WeatherFlow.parsedCurrentWeather cv).precipitationProbability = (z : ℚ)) ∧
     (∃ z : ℤ, (WeatherFlow.parsedCurrentWeather cv).uvIndex = (z : ℚ)) ∧
     (∃ z : ℤ, (WeatherFlow.parsedCurrentWeather cv).pressure = (z : ℚ)) ∧
     (∃ z : ℤ, (WeatherFlow.mkDailyItem iv cv).tempMax = (z : ℚ)) ∧
     (∃ z : ℤ, (WeatherFlow.mkDailyItem iv cv).tempMin = (z : ℚ)) ∧
     (∃ z : ℤ, (WeatherFlow.mkDailyItem iv cv).precipitationProbability = (z : ℚ))) ∧
    ((cv.temperature = none → (WeatherFlow.parsedCurrentWeather cv).temperature = 0) ∧
     (cv.humidity = none → (WeatherFlow.parsedCurrentWeather cv).humidity = 0) ∧
     (cv.windSpeed = none → (WeatherFlow.parsedCurrentWeather cv).windSpeed = 0) ∧
     (cv.precipitationProbability = none →
       (WeatherFlow.parsedCurrentWeather cv).precipitationProbability = 0) ∧
     (cv.uvIndex = none → (WeatherFlow.parsedCurrentWeather cv).uvIndex = 0) ∧
     (cv.pressureSeaLevel = none → (WeatherFlow.parsedCurrentWeather cv).pressure = 1000) ∧
     (cv.weatherCode = none →
       (WeatherFlow.parsedCurrentWeather cv).weatherDescription = "Weather data unavailable") ∧
     (cv.temperatureMax = none → (WeatherFlow.mkDailyItem iv cv).tempMax = 0) ∧
     (cv.temperatureMin = none → (WeatherFlow.mkDailyItem iv cv).tempMin = 0) ∧
     (cv.precipitationProbability = none →
       (WeatherFlow.mkDailyItem iv cv).precipitationProbability = 0) ∧
     (cv.weatherCodeDay = none → cv.weatherCode = none →
       (WeatherFlow.mkDailyItem iv cv).weatherDescription = "Weather data unavailable")) := by
  constructor
  · refine ⟨⟨_, rfl⟩, ⟨_, rfl⟩, ⟨_, rfl⟩, ⟨_, rfl⟩, ⟨_, rfl⟩, ⟨_, rfl⟩, ⟨_, rfl⟩, ⟨_, rfl⟩⟩
  · refine ⟨?_, ?_, ?_, ?_, ?_, ?_, ?_, ?_, ?_, ?_, ?_⟩
    · intro h
      simp only [WeatherFlow.parsedCurrentWeather, h, Option.getD_none, WeatherFlow.jsRound]
      norm_num
    · intro h
      simp only [WeatherFlow.parsedCurrentWeather, h, Option.getD_none, WeatherFlow.jsRound]
      norm_num
    · intro h
      simp only [WeatherFlow.parsedCurrentWeather, h, Option.getD_none, WeatherFlow.jsRound]
      norm_num
    · intro h
      simp only [WeatherFlow.parsedCurrentWeather, h, Option.getD_none, WeatherFlow.jsRound]
      norm_num
    · intro h
      simp only [WeatherFlow.parsedCurrentWeather, h, Option.getD_none, WeatherFlow.jsRound]
      norm_num
    · intro h
      simp only [WeatherFlow.parsedCurrentWeather, h, Option.getD_none, WeatherFlow.jsRound]
      norm_num
    · intro h
      simp only [WeatherFlow.parsedCurrentWeather, h, WeatherFlow.weatherCodeToString]
    · intro h
      simp only [WeatherFlow.mkDailyItem, h, Option.getD_none, WeatherFlow.jsRound]
      norm_num
    · intro h
      simp only [WeatherFlow.mkDailyItem, h, Option.getD_none, WeatherFlow.jsRound]
      norm_num
    · intro h
      simp only [WeatherFlow.mkDailyItem, h, Option.getD_none, WeatherFlow.jsRound]
      norm_num
    · intro h1 h2
      simp only [WeatherFlow.mkDailyItem, h1, h2, Option.orElse, WeatherFlow.weatherCodeToString]

/-- Witness for C8 (amended): with every upstream field absent the mapped
pressure is 1000. -/
theorem field_mapper_rounding_defaults_witness :
    (WeatherFlow.parsedCurrentWeather WeatherFlow.emptyValues).pressure = 1000 := by
  have h := field_mapper_rounding_defaults WeatherFlow.emptyValues ⟨0, none⟩
  exact h.2.2.2.2.2.2.1 rfl

/-- Counterexample to C9 as stated: with an absent upstream weather code
the mapped record has weather code 0 but description equal to the
availability sentinel, while the lookup table applied to 0 yields a
different string. -/
theorem description_absent_code_mismatch :
    (WeatherFlow.parsedCurrentWeather WeatherFlow.emptyValues).weatherDescription =
      "Weather data unavailable" ∧
    (WeatherFlow.parsedCurrentWeather WeatherFlow.emptyValues).weatherCode = 0 ∧
    WeatherFlow.weatherCodeToString (some 0) = "Unknown" ∧
    ((WeatherFlow.parsedCurrentWeather WeatherFlow.emptyValues).weatherDescription =
        WeatherFlow.weatherCodeToString
          (some ((WeatherFlow.parsedCurrentWeather WeatherFlow.emptyValues).weatherCode)) →
      False) := by
  refine ⟨rfl, rfl, rfl, ?_⟩
  intro h
  simp only [WeatherFlow.parsedCurrentWeather, WeatherFlow.emptyValues,
    Option.getD_none, WeatherFlow.weatherCodeToString, WeatherFlow.weatherCodeTable] at h
  simp at h

/-- Claim C9, amended: whenever the upstream provides a weather code, the
mapped description equals the fixed lookup table applied to the record's
weather code, with an unknown code yielding the literal Code string
(9999 maps to Code 9999); when no code is provided the description is the
availability sentinel instead. -/
theorem description_lookup_amended :
    (∀ cv : WeatherFlow.Values, ∀ c : ℤ, cv.weatherCode = some c →
      (WeatherFlow.parsedCurrentWeather cv).weatherDescription =
        WeatherFlow.weatherCodeToString
          (some ((WeatherFlow.parsedCurrentWeather cv).weatherCode))) ∧
    (∀ iv : WeatherFlow.Interval, ∀ v : WeatherFlow.Values, ∀ c : ℤ,
      v.weatherCodeDay.orElse (fun _ => v.weatherCode) = some c →
      (WeatherFlow.mkDailyItem iv v).weatherDescription =
        WeatherFlow.weatherCodeToString
          (some ((WeatherFlow.mkDailyItem iv v).weatherCode))) ∧
    WeatherFlow.weatherCodeToString (some 9999) = "Code 9999" ∧
    (∀ cv : WeatherFlow.Values, cv.weatherCode = none →
      (WeatherFlow.parsedCurrentWeather cv).weatherDescription =
        "Weather data unavailable") := by
  refine ⟨?_, ?_, rfl, ?_⟩
  · intro cv c h
    simp only [WeatherFlow.parsedCurrentWeather, h, Option.getD_some]
  · intro iv v c h
    simp only [WeatherFlow.mkDailyItem, h, Option.getD_some]
  · intro cv h
    simp only [WeatherFlow.parsedCurrentWeather, h, WeatherFlow.weatherCodeToString]

/-- Concrete values record with only an unknown weather code present, for
the C9 witness. -/
def cvUnknownCode : WeatherFlow.Values :=
  { WeatherFlow.emptyValues with weatherCode := some 9999 }

/-- Witness for C9 (amended): a mapped record with upstream code 9999 has
a description equal to the table lookup of its own weather code. -/
theorem description_lookup_amended_witness :
    (WeatherFlow.parsedCurrentWeather cvUnknownCode).weatherDescription =
      WeatherFlow.weatherCodeToString
        (some ((WeatherFlow.parsedCurrentWeather cvUnknownCode).weatherCode)) :=
  description_lookup_amended.1 cvUnknownCode 9999 rfl

namespace Part003

theorem currentLoopStep_none_pos (now : ℤ) (iv : Interval)
    (hc : isCurrentCandidate iv = true) :
    currentLoopStep now none iv = some iv := by
  unfold currentLoopStep
  rw [if_pos hc]

theorem currentLoopStep_some_pos (now : ℤ) (a iv : Interval)
    (hc : isCurrentCandidate iv = true) :
    currentLoopStep now (some a) iv =
      if iv.startTime ≤ now ∧ a.startTime < iv.startTime then some iv
      else some a := by
  unfold currentLoopStep
  rw [if_pos hc]

theorem currentLoopStep_neg (now : ℤ) (acc : Option Interval) (iv : Interval)
    (hc : ¬isCurrentCandidate iv = true) :
    currentLoopStep now acc iv = acc := by
  unfold currentLoopStep
  rw [if_neg hc]

theorem currentLoopStep_candidate (now : ℤ) (acc : Option Interval)
    (iv : Interval) (hacc : ∀ b, acc = some b → isCurrentCandidate b = true) :
    ∀ b, currentLoopStep now acc iv = some b → isCurrentCandidate b = true := by
  intro b h
  by_cases hc : isCurrentCandidate iv
  · cases acc with
    | none =>
      rw [currentLoopStep_none_pos now iv hc] at h
      obtain rfl := Option.some.inj h
      exact hc
    | some a =>
      rw [currentLoopStep_some_pos now a iv hc] at h
      by_cases hrep : iv.startTime ≤ now ∧ a.startTime < iv.startTime
      · rw [if_pos hrep] at h
        obtain rfl := Option.some.inj h
        exact hc
      · rw [if_neg hrep] at h
        exact hacc b h
  · rw [currentLoopStep_neg now acc iv hc] at h
    exact hacc b h

theorem foldl_currentLoopStep_candidate (now : ℤ) (l : List Interval) :
    ∀ acc, (∀ b, acc = some b → isCurrentCandidate b = true) →
      ∀ b, l.foldl (currentLoopStep now) acc = some b →
        isCurrentCandidate b = true := by
  induction l with
  | nil =>
    intro acc hacc b h
    exact hacc b h
  | cons x xs ih =>
    intro acc hacc b h
    exact ih (currentLoopStep now acc x)
      (currentLoopStep_candidate now acc x hacc) b h

theorem potentialCurrentInterval_candidate (intervals : List Interval)
    (now : ℤ) (iv : Interval)
    (h : potentialCurrentInterval intervals now = some iv) :
    isCurrentCandidate iv = true := by
  unfold potentialCurrentInterval at h
  cases hf : intervals.foldl (currentLoopStep now) none with
  | some b =>
    rw [hf] at h
    have hb : b = iv := Option.some.inj h
    exact hb ▸ foldl_currentLoopStep_candidate now intervals none
      (fun c hc => Option.noConfusion hc) b hf
  | none =>
    rw [hf] at h
    cases intervals with
    | nil => exact Option.noConfusion h
    | cons iv0 rest =>
      have h2 : (if isCurrentCandidate iv0 = true then some iv0 else none) =
          some iv := h
      by_cases hc : isCurrentCandidate iv0
      · rw [if_pos hc] at h2
        obtain rfl := Option.some.inj h2
        exact hc
      · rw [if_neg hc] at h2
        exact Option.noConfusion h2

end Part003

/-- Interval carrying instantaneous temperature and a maximum but no
minimum temperature, used to refute C4 as stated. -/
def ivMixed : Part003.Interval :=
  ⟨0, { WeatherFlow.emptyValues with
          temperature := some 20, temperatureMax := some 25 }⟩

/-- Counterexample to C4 as stated: this interval is not a daily candidate
(no minimum temperature) and carries the instantaneous temperature field,
yet the classifier does not make it a current candidate either, because
its current test requires the maximum temperature to be absent. -/
theorem classifier_mixed_interval_neither :
    Part003.isDailyCandidate ivMixed = false ∧
    ivMixed.values.temperature.isSome = true ∧
    Part003.isCurrentCandidate ivMixed = false :=
  ⟨rfl, rfl, rfl⟩

/-- Claim C4, amended: an interval is a daily candidate iff its values
contain both the maximum and the minimum temperature; it is a current
candidate iff it contains the instantaneous temperature AND lacks the
maximum temperature (not merely iff it is not daily); in particular every
interval carrying temperature, temperatureMax and temperatureMin is
classified daily, is not a current candidate, and is never selected as
the current interval. -/
theorem classifier_amended :
    (∀ iv : Part003.Interval, Part003.isDailyCandidate iv = true ↔
      (iv.values.temperatureMax.isSome = true ∧
       iv.values.temperatureMin.isSome = true)) ∧
    (∀ iv : Part003.Interval, Part003.isCurrentCandidate iv = true ↔
      (iv.values.temperature.isSome = true ∧
       iv.values.temperatureMax = none)) ∧
    (∀ (intervals : List Part003.Interval) (now : ℤ)
       (iv : Part003.Interval),
      iv.values.temperature.isSome = true →
      iv.values.temperatureMax.isSome = true →
      iv.values.temperatureMin.isSome = true →
      Part003.isDailyCandidate iv = true ∧
      Part003.isCurrentCandidate iv = false ∧
      Part003.potentialCurrentInterval intervals now ≠ some iv) := by
  refine ⟨?_, ?_, ?_⟩
  · intro iv
    simp [Part003.isDailyCandidate]
  · intro iv
    simp [Part003.isCurrentCandidate, Option.isNone_iff_eq_none]
  · intro intervals now iv h1 h2 h3
    obtain ⟨x, hx⟩ := Option.isSome_iff_exists.mp h2
    have hd : Part003.isDailyCandidate iv = true := by
      simp [Part003.isDailyCandidate, h2, h3]
    have hcn : Part003.isCurrentCandidate iv = false := by
      simp [Part003.isCurrentCandidate, hx]
    refine ⟨hd, hcn, ?_⟩
    intro hsel
    have hcand := Part003.potentialCurrentInterval_candidate intervals now iv hsel
    rw [hcn] at hcand
    cases hcand

/-- Interval carrying all three temperature fields, for the C4 witness. -/
def ivFull : Part003.Interval :=
  ⟨0, { WeatherFlow.emptyValues with
          temperature := some 20, temperatureMax := some 25,
          temperatureMin := some 15 }⟩

/-- Witness for C4 (amended) at a concrete fully-populated interval. -/
theorem classifier_amended_witness :
    Part003.isDailyCandidate ivFull = true ∧
    Part003.isCurrentCandidate ivFull = false ∧
    Part003.potentialCurrentInterval [] 0 ≠ some ivFull :=
  classifier_amended.2.2 [] 0 ivFull rfl rfl rfl

/-- Current candidate starting in the future (timestamp 10, with `now`
taken as 0), listed first upstream. -/
def ivFutureCand : Part003.Interval :=
  ⟨10, { WeatherFlow.emptyValues with temperature := some 21 }⟩

/-- Current candidate starting in the past (timestamp -5), listed second
upstream. -/
def ivPastCand : Part003.Interval :=
  ⟨-5, { WeatherFlow.emptyValues with temperature := some 22 }⟩

/-- Claim C5 evaluated at the failing input: although a current candidate
whose start time is not after now exists (start -5 ≤ now = 0), the
selection returns the first-listed candidate whose start time 10 lies in
the future — the loop seeds with the first candidate and only replaces it
with candidates that start both not after now and strictly after the
incumbent, contradicting the documented pick of the latest not-after-now
start. -/
theorem current_selection_prefers_first_future :
    Part003.potentialCurrentInterval [ivFutureCand, ivPastCand] 0 =
      some ivFutureCand ∧
    Part003.isCurrentCandidate ivPastCand = true ∧
    ivPastCand.startTime ≤ 0 ∧
    0 < ivFutureCand.startTime ∧
    ivFutureCand.startTime ≠ ivPastCand.startTime := by
  refine ⟨rfl, rfl, by decide, by decide, by decide⟩

namespace WeatherFlow

/-- The current fetch did not produce a usable values object: network
error, non-2xx status, malformed JSON body, or a payload failing the
optional-chain structure check. -/
def currentFetchFailed : FetchResult (Option Values) → Prop
  | FetchResult.payload (some _) => False
  | _ => True

/-- The forecast fetch did not produce a usable interval list: network
error, non-2xx status, malformed JSON body, a payload failing the
structure check, or a payload with zero usable intervals (none with a
values object and a day not before today). -/
def forecastFetchFailed (today : ℤ) : FetchResult (Option (List Interval)) → Prop
  | FetchResult.payload (some intervals) => tempForecastItems intervals today = []
  | _ => True

end WeatherFlow

/-- Counterexample to C2 as stated: on the missing-credential failure path
the sentinel current record has pressure 1000, so it is not the all-zero
record the claim describes. -/
theorem failure_sentinel_not_all_zero :
    (WeatherFlow.getWeather ⟨0, 0⟩ false 0 WeatherFlow.FetchResult.networkError
        WeatherFlow.FetchResult.networkError).output.current.pressure = 1000 ∧
    ((1000 : ℚ) = 0 → False) :=
  ⟨rfl, by norm_num⟩

/-- Claim C2, amended: `getWeather` never raises — it is a total function
of the failure mode — and for every failure mode (missing credential, or
any combination of network failure, non-2xx status, malformed JSON and
zero usable intervals on both fetches) it returns the fully-populated
sentinel result: a current record that is all-zero except for pressure
1000 with description Unavailable, and seven sentinel forecast entries
with calendar-correct dates. -/
theorem getWeather_failure_sentinel (input : WeatherFlow.GetWeatherInput)
    (hasApiKey : Bool) (today : ℤ)
    (cur : WeatherFlow.FetchResult (Option WeatherFlow.Values))
    (fc : WeatherFlow.FetchResult (Option (List WeatherFlow.Interval)))
    (h : hasApiKey = false ∨
      (WeatherFlow.currentFetchFailed cur ∧
        WeatherFlow.forecastFetchFailed today fc)) :
    (WeatherFlow.getWeather input hasApiKey today cur fc).output =
      ⟨⟨0, 0, 0, 0, 0, 0, 1000, "Unavailable"⟩,
       (List.range 7).map
         (fun (i : ℕ) => ⟨today + (i : ℤ), 0, 0, 0, "N/A", 0⟩)⟩ := by
  cases h with
  | inl hk =>
    subst hk
    rfl
  | inr hfail =>
    obtain ⟨hcur, hfc⟩ := hfail
    cases hasApiKey with
    | false => rfl
    | true =>
      have hc : WeatherFlow.parsedCurrentWeatherResult cur =
          WeatherFlow.fallbackCurrent := by
        cases cur with
        | payload o =>
          cases o with
          | none => rfl
          | some v => exact False.elim hcur
        | networkError => rfl
        | httpError s => rfl
        | malformedJson => rfl
      have hf : WeatherFlow.parsedForecastItems fc today =
          WeatherFlow.createFallbackForecast today := by
        cases fc with
        | payload o =>
          cases o with
          | none => rfl
          | some intervals =>
            have he : WeatherFlow.tempForecastItems intervals today = [] := hfc
            simp [WeatherFlow.parsedForecastItems, he]
        | networkError => rfl
        | httpError s => rfl
        | malformedJson => rfl
      show WeatherFlow.WeatherAndForecastOutput.mk
          (WeatherFlow.parsedCurrentWeatherResult cur)
          ((WeatherFlow.parsedForecastItems fc today).take 7) = _
      rw [hc, hf,
        WeatherFlow.take_seven _ (WeatherFlow.createFallbackForecast_length today)]
      rfl

/-- Witness for C2 (amended): both fetches fail with a network error while
the key is present. -/
theorem getWeather_failure_sentinel_witness :
    (WeatherFlow.getWeather ⟨0, 0⟩ true 0 WeatherFlow.FetchResult.networkError
        WeatherFlow.FetchResult.networkError).output =
      ⟨⟨0, 0, 0, 0, 0, 0, 1000, "Unavailable"⟩,
       (List.range 7).map
         (fun (i : ℕ) => ⟨(0 : ℤ) + (i : ℤ), 0, 0, 0, "N/A", 0⟩)⟩ :=
  getWeather_failure_sentinel ⟨0, 0⟩ true 0 WeatherFlow.FetchResult.networkError
    WeatherFlow.FetchResult.networkError (Or.inr ⟨trivial, trivial⟩)

namespace WeatherFlow

theorem mem_insertByDate (x a : DailyForecastItem)
    (l : List DailyForecastItem) :
    a ∈ insertByDate x l ↔ a = x ∨ a ∈ l := by
  induction l with
  | nil => simp [insertByDate]
  | cons y ys ih =>
    by_cases h : y.date < x.date
    · rw [insertByDate, if_pos h]
      simp only [List.mem_cons, ih]
      tauto
    · rw [insertByDate, if_neg h]
      simp only [List.mem_cons]

theorem mem_sortByDate (a : DailyForecastItem) (l : List DailyForecastItem) :
    a ∈ sortByDate l ↔ a ∈ l := by
  induction l with
  | nil => simp [sortByDate]
  | cons x xs ih =>
    show a ∈ insertByDate x (sortByDate xs) ↔ _
    rw [mem_insertByDate]
    simp only [List.mem_cons, ih]

end WeatherFlow

/-- Values of the scenario interval for day 0 (window day present). -/
def scV0 : WeatherFlow.Values :=
  { WeatherFlow.emptyValues with
      temperatureMax := some 10, temperatureMin := some 3,
      weatherCodeDay := some 1000, precipitationProbability := some 20 }

/-- Values of the scenario interval for day 1. -/
def scV1 : WeatherFlow.Values :=
  { WeatherFlow.emptyValues with
      temperatureMax := some 11, temperatureMin := some 4,
      weatherCodeDay := some 1001, precipitationProbability := some 30 }

/-- Values of the scenario interval for day 3. -/
def scV3 : WeatherFlow.Values :=
  { WeatherFlow.emptyValues with
      temperatureMax := some 13, temperatureMin := some 6,
      weatherCodeDay := some 4001, precipitationProbability := some 50 }

/-- Values of the scenario interval for day 4. -/
def scV4 : WeatherFlow.Values :=
  { WeatherFlow.emptyValues with
      temperatureMax := some 14, temperatureMin := some 7,
      weatherCodeDay := some 8000, precipitationProbability := some 60 }

/-- Scenario interval covering day 0. -/
def scDay0 : WeatherFlow.Interval := ⟨0, some scV0⟩

/-- Scenario interval covering day 1. -/
def scDay1 : WeatherFlow.Interval := ⟨1, some scV1⟩

/-- Scenario interval covering day 3. -/
def scDay3 : WeatherFlow.Interval := ⟨3, some scV3⟩

/-- Scenario interval covering day 4. -/
def scDay4 : WeatherFlow.Interval := ⟨4, some scV4⟩

/-- The forecast computed from upstream intervals covering only days
0, 1, 3 and 4, delivered out of order, with today = 0. -/
def scForecast : List WeatherFlow.DailyForecastItem :=
  WeatherFlow.parsedForecastItems
    (WeatherFlow.FetchResult.payload (some [scDay3, scDay0, scDay4, scDay1])) 0

/-- Claim C3: the calendar aligner fills each slot from the mapped data
when available — for each offset i < 7, if a mapped record with date
today + i exists the slot carries such a record (the first match in the
sorted candidate list), otherwise the slot is a synthesized sentinel for
that date.  In particular, for upstream daily intervals covering only
days 0, 1, 3, 4 of a 5-day window, entry 2 is the sentinel and the other
four carry the mapped data; and with two candidates sharing a date the
slot carries the first match (stable sort preserves upstream order among
equal dates). -/
theorem calendar_aligner_fills_slots :
    (∀ (today : ℤ) (items : List WeatherFlow.DailyForecastItem) (i : ℕ),
      i < 7 →
      ((∃ f ∈ items, f.date = today + i) →
        ∃ r, (WeatherFlow.finalForecast (WeatherFlow.sortByDate items) today)[i]? =
            some r ∧ r ∈ items ∧ r.date = today + i) ∧
      ((∀ f ∈ items, f.date ≠ today + i) →
        (WeatherFlow.finalForecast (WeatherFlow.sortByDate items) today)[i]? =
          some ⟨today + i, 0, 0, 0, "N/A", 0⟩)) ∧
    scForecast[2]? = some ⟨2, 0, 0, 0, "N/A", 0⟩ ∧
    scForecast[0]? = some ⟨0, 10, 3, 1000, "Clear", 20⟩ ∧
    scForecast[1]? = some ⟨1, 11, 4, 1001, "Cloudy", 30⟩ ∧
    scForecast[3]? = some ⟨3, 13, 6, 4001, "Rain", 50⟩ ∧
    scForecast[4]? = some ⟨4, 14, 7, 8000, "Thunderstorm", 60⟩ ∧
    (WeatherFlow.finalForecast
        (WeatherFlow.sortByDate
          [⟨0, 0, 0, 1, "first", 0⟩, ⟨0, 0, 0, 2, "second", 0⟩]) 0)[0]? =
      some ⟨0, 0, 0, 1, "first", 0⟩ := by
  refine ⟨?_, rfl, ?_, ?_, ?_, ?_, rfl⟩
  · intro today items i hi
    constructor
    · rintro ⟨f, hfmem, hfdate⟩
      cases hfind : (WeatherFlow.sortByDate items).find?
          (fun g => g.date == today + (i : ℤ)) with
      | none =>
        exfalso
        have hnone := List.find?_eq_none.mp hfind f
          ((WeatherFlow.mem_sortByDate f items).mpr hfmem)
        exact hnone (by simp [hfdate])
      | some r =>
        have hrmem := List.mem_of_find?_eq_some hfind
        have hrp := List.find?_some hfind
        refine ⟨r, ?_, (WeatherFlow.mem_sortByDate r items).mp hrmem,
          by simpa using hrp⟩
        rw [WeatherFlow.finalForecast, WeatherFlow.range7_map_getElem _ i hi]
        simp only [hfind]
    · intro hnone
      have hfind : (WeatherFlow.sortByDate items).find?
          (fun g => g.date == today + (i : ℤ)) = none := by
        apply List.find?_eq_none.mpr
        intro a ha
        have hda := hnone a ((WeatherFlow.mem_sortByDate a items).mp ha)
        simpa using hda
      rw [WeatherFlow.finalForecast, WeatherFlow.range7_map_getElem _ i hi]
      simp only [hfind]
  · have h : scForecast[0]? = some (WeatherFlow.mkDailyItem scDay0 scV0) := rfl
    rw [h]
    norm_num [WeatherFlow.mkDailyItem, scDay0, scV0, WeatherFlow.emptyValues,
      WeatherFlow.jsRound, WeatherFlow.weatherCodeToString,
      WeatherFlow.weatherCodeTable, Option.orElse]
  · have h : scForecast[1]? = some (WeatherFlow.mkDailyItem scDay1 scV1) := rfl
    rw [h]
    norm_num [WeatherFlow.mkDailyItem, scDay1, scV1, WeatherFlow.emptyValues,
      WeatherFlow.jsRound, WeatherFlow.weatherCodeToString,
      WeatherFlow.weatherCodeTable, Option.orElse]
  · have h : scForecast[3]? = some (WeatherFlow.mkDailyItem scDay3 scV3) := rfl
    rw [h]
    norm_num [WeatherFlow.mkDailyItem, scDay3, scV3, WeatherFlow.emptyValues,
      WeatherFlow.jsRound, WeatherFlow.weatherCodeToString,
      WeatherFlow.weatherCodeTable, Option.orElse]
  · have h : scForecast[4]? = some (WeatherFlow.mkDailyItem scDay4 scV4) := rfl
    rw [h]
    norm_num [WeatherFlow.mkDailyItem, scDay4, scV4, WeatherFlow.emptyValues,
      WeatherFlow.jsRound, WeatherFlow.weatherCodeToString,
      WeatherFlow.weatherCodeTable, Option.orElse]

/-- Witness for C3 at a concrete aligner input: a single candidate dated
today itself fills slot 0. -/
theorem calendar_aligner_fills_slots_witness :
    ∃ r, (WeatherFlow.finalForecast
        (WeatherFlow.sortByDate [⟨5, 1, 2, 3, "x", 4⟩]) 5)[0]? = some r ∧
      r ∈ [(⟨5, 1, 2, 3, "x", 4⟩ : WeatherFlow.DailyForecastItem)] ∧
      r.date = 5 + ((0 : ℕ) : ℤ) :=
  (calendar_aligner_fills_slots.1 5 [⟨5, 1, 2, 3, "x", 4⟩] 0 (by decide)).1
    ⟨⟨5, 1, 2, 3, "x", 4⟩, by simp, by simp⟩
